import Mathlib

/-!
# Verification of AdSend (`src/js/ad-injector.js`)

A shallow embedding of the ad-injection script's logic, followed by theorems
settling the specification claims.

Modelling conventions:
* JS arrays become `List`; `undefined`-able values become `Option`.
* `Math.random()` draws are supplied as explicit parameters: a tape
  `rnd : Nat → Nat` for the Fisher-Yates loop (the draw made when the loop
  counter `m` has a given value, i.e. `Math.floor(Math.random() * m)`,
  which in the browser always lies in `[0, m)` for `m > 0`), and single
  `Nat` picks elsewhere.
* The DOM is modelled element-only (text nodes carry no behaviour here);
  inline-style writes are not observable by any claim and are elided.
-/

namespace AdSend

/-- JS truthiness of an optional string: `undefined`/`null` and `""` are falsy. -/
def jsTruthy : Option String → Bool
  | none => false
  | some s => !s.isEmpty

/-! ## `shuffle` (lines 20-29)

```js
function shuffle(array) {
  let m = array.length, t, i;
  while (m) {
    i = Math.floor(Math.random() * m--);
    t = array[m];
    array[m] = array[i];
    array[i] = t;
  }
  return array;
}
```
One loop iteration with pre-decrement counter `m+1` draws `i = rnd (m+1)`
(`Math.floor(Math.random() * (m+1))`, so `i ≤ m` in the browser) and swaps
positions `m` and `i`. -/

/-- JS `t = array[m]; array[m] = array[i]; array[i] = t` for in-bounds indices.
(The out-of-bounds fallback is never exercised by the source: the random
draw is always below the current bound.) -/
def jsSwap (l : List α) (m i : Nat) : List α :=
  match l.get? m, l.get? i with
  | some t, some u => (l.set m u).set i t
  | _, _ => l

/-- The `while (m)` loop, counting `m` down. -/
def shuffleGo (rnd : Nat → Nat) : Nat → List α → List α
  | 0, l => l
  | m + 1, l => shuffleGo rnd m (jsSwap l m (rnd (m + 1)))

/-- Fisher-Yates shuffle as in the source, randomness supplied by `rnd`. -/
def shuffle (rnd : Nat → Nat) (array : List α) : List α :=
  shuffleGo rnd array.length array

/-! ## Per-container queue (lines 130-146)

```js
const adQueues = new WeakMap();
function getNextAd(container, banners) {
  let queue = adQueues.get(container);
  if (!queue || queue.length === 0) {
    queue = shuffle([...banners]);
    adQueues.set(container, queue);
  }
  return queue.shift();
}
```
The `WeakMap` entry for one fixed container is an `Option (List String)`
(`none` = no entry yet).  `shift()` on the mutated array leaves its tail in
the map; an empty `banners` makes `shift()` return `undefined` (`none`). -/

/-- One `getNextAd` call for a fixed container: result and the queue the
`WeakMap` holds afterwards. -/
def getNextAd (rnd : Nat → Nat) (banners : List String)
    (stored : Option (List String)) : Option String × List String :=
  let queue :=
    match stored with
    | none => shuffle rnd banners
    | some q => if q.isEmpty then shuffle rnd banners else q
  (queue.head?, queue.tail)

/-- Makes `n` successive `getNextAd` calls for the same container, the `k`-th call
using shuffle tape `tapes k`; returns the list of results. -/
def drawSeq (tapes : Nat → Nat → Nat) (banners : List String) :
    Nat → Nat → Option (List String) → List (Option String)
  | _, 0, _ => []
  | k, n + 1, stored =>
      let r := getNextAd (tapes k) banners stored
      r.1 :: drawSeq tapes banners (k + 1) n (some r.2)

/-! ## DOM model

Element-only model of the pieces of the DOM the script reads and writes.
`nid` is object identity (the script compares nodes with `!==` and keys a
`WeakMap` by element).  Inline-style and geometry writes
(`getBoundingClientRect`, `style.*`) are not observable by any claim and
are elided. -/

/-- A child element of a container. -/
structure Node where
  nid : Nat
  tag : String
  classes : List String
  idAttr : String
  displayNone : Bool
  html : String
deriving Repr, DecidableEq

/-- JS `el.classList.contains('ad-send-banner')`. -/
def isMarker (n : Node) : Bool := n.classes.contains "ad-send-banner"

/-- A container element: its classes, `id`, children in document order and
the persisted `data-ad-index` attribute (the script only ever writes
integers there; a non-numeric value would take the same reset path as an
out-of-range one, see `chooseIdx`). -/
structure Container where
  classes : List String
  idAttr : String
  children : List Node
  adIndex : Option Int
deriving Repr, DecidableEq

/-- Line 170: `container.classList.contains('ad-send-banner') ||
container.id?.startsWith('banner-slot-')`. -/
def isSlot (c : Container) : Bool :=
  c.classes.contains "ad-send-banner" || "banner-slot-".isPrefixOf c.idAttr

/-- Number of ad wrappers (elements carrying the marker class) a container
holds. -/
def wrapperCount (c : Container) : Nat :=
  (c.children.filter fun n => isMarker n).length

/-- Lines 229-242: choose the insertion index among the `len` non-ad
children.  Returns `none` when the random pick misses (`idx === undefined`,
only possible with an out-of-range draw) — the source `return`s there
without touching the attribute — and otherwise the pair of the index used
and the `data-ad-index` attribute after the call. -/
def chooseIdx (adIndexAttr : Option Int) (len : Nat) (rIdx : Nat) :
    Option (Nat × Option Int) :=
  match adIndexAttr with
  | some i =>
      if i < 1 || i ≥ (len : Int) - 1 then some (1, some 1)
      else some (i.toNat, some i)
  | none =>
      let validIndexes := List.range' 1 (len - 2)
      match validIndexes.get? rIdx with
      | none => none
      | some idx => some (idx, some (idx : Int))

/-- JS `container.insertBefore(w, ref.nextSibling)` /
`container.appendChild(w)`: insert `w` right after the node with identity
`refId` (append when absent, matching the no-next-sibling case). -/
def insertAfterNid (w : Node) (refId : Nat) : List Node → List Node
  | [] => [w]
  | n :: rest =>
      if n.nid = refId then n :: w :: rest else n :: insertAfterNid w refId rest

/-- Identity of `previousSibling` of the node with identity `w` (inner
walk, carrying the previous node's identity). -/
def prevSiblingNidAux (w : Nat) : List Node → Option Nat → Option Nat
  | [], _ => none
  | n :: rest, prev =>
      if n.nid = w then prev else prevSiblingNidAux w rest (some n.nid)

/-- Identity of `previousSibling` of the node with identity `w`. -/
def prevSiblingNid (l : List Node) (w : Nat) : Option Nat :=
  prevSiblingNidAux w l none

/-- Lines 61-80 (`replicateSiblingStyles`), class/id part: copy the first
visible sibling's classes (dropping the marker class, then re-adding it)
and derive an id.  Computed-style copying is elided. -/
def replicateSiblingStyles (target : Node) (siblings : List Node) : Node :=
  match siblings.find? fun el => el.nid ≠ target.nid && !el.displayNone with
  | none => target
  | some ref =>
      { target with
        classes :=
          (ref.classes.filter fun c => !c.isEmpty && c ≠ "ad-send-banner")
            ++ ["ad-send-banner"]
        idAttr :=
          if !ref.idAttr.isEmpty && ref.idAttr ≠ target.idAttr then
            ref.idAttr ++ "-ad"
          else target.idAttr }

/-- Lines 87-96 (`animateAdEntry`), class part: strip the four entry
animation classes and add the randomly chosen one
(`Math.floor(Math.random() * 4)` is always in range; an out-of-range model
draw adds nothing).  Sizing of the wrapper and its images is elided. -/
def animateAdEntry (rAnim : Nat) (w : Node) : Node :=
  let animations := ["ad-flip-in", "ad-bounce-in", "ad-fade-in", "ad-slide-in"]
  let cleaned := w.classes.filter fun c => !animations.contains c
  match animations.get? rAnim with
  | some anim => { w with classes := cleaned ++ [anim] }
  | none => { w with classes := cleaned }

/-- A banner entry of the fetched config (`{imageUrl, targetUrl?}`). -/
structure BannerCfg where
  imageUrl : Option String
  targetUrl : Option String
deriving Repr, DecidableEq

/-- JS `hay.includes(needle)`. -/
def containsSub (hay needle : String) : Bool :=
  hay.toList.tails.any fun t => needle.toList.isPrefixOf t

/-- Line 302: `window._adConfigBanners.find(b => adHtml.includes(b.imageUrl))`
(a missing `imageUrl` coerces to the string `"undefined"`). -/
def findBannerObj (cfgBanners : List BannerCfg) (adHtml : String) :
    Option BannerCfg :=
  cfgBanners.find? fun b => containsSub adHtml (b.imageUrl.getD "undefined")

/-- Lines 292-299: `customRef.cloneNode(false)` with copied classes and a
derived id, rendered into the wrapper's markup (computed-style copying
elided). -/
def renderClone (ref : Node) (inner : String) : String :=
  "<" ++ ref.tag ++ " class=\"" ++ String.intercalate " " ref.classes
    ++ "\" id=\"" ++ (if ref.idAttr.isEmpty then "" else ref.idAttr ++ "-ad")
    ++ "\">" ++ inner ++ "</" ++ ref.tag ++ ">"

/-- Module state read by `sendAd` besides its arguments: the
`copySiblingSelector` module variable, the module-level `banners` list, and
`window._adConfigBanners` (`none` = never set).  `matchesSel` gives the
CSS-selector semantics of the host page (`querySelector`). -/
structure SendEnv where
  copySiblingSelector : Option String
  gBanners : List String
  adConfigBanners : Option (List BannerCfg)
  matchesSel : String → Node → Bool

/-- The random draws and the fresh object identity one `sendAd` call may
consume. -/
structure RandInput where
  tape : Nat → Nat
  rIdx : Nat
  rAnim : Nat
  freshId : Nat

/-! ## `sendAd` (lines 168-346)

Structural effect of one `sendAd(adHtmlArr, container, isFirstLoad)` call on
the container and on the container's `WeakMap` queue entry.  (`isFirstLoad`
is never read by the source body and is omitted.)  Sizing, inline styles
and the image/iframe style normalisation are elided; children, classes,
ids, injected markup and the `data-ad-index` attribute are modelled. -/

/-- A freshly created `<div class="ad-send-banner">`. -/
def newWrapper (freshId : Nat) : Node :=
  { nid := freshId, tag := "div", classes := ["ad-send-banner"],
    idAttr := "", displayNone := false, html := "" }

/-- Lines 280-316: compute the wrapper's new content (and classes/id, via
`replicateSiblingStyles`) after placement. -/
def fillWrapper (env : SendEnv) (placed : List Node) (w : Node)
    (adHtml : String) : Node :=
  if jsTruthy env.copySiblingSelector then
    match placed.find? (env.matchesSel (env.copySiblingSelector.getD "")) with
    | some customRef =>
        let bannerObj :=
          if !env.gBanners.isEmpty && env.adConfigBanners.isSome then
            findBannerObj (env.adConfigBanners.getD []) adHtml
          else none
        let inner :=
          match bannerObj with
          | some b =>
              if jsTruthy b.targetUrl then
                "<a href=\"" ++ b.targetUrl.getD "" ++
                  "\" target=\"_blank\" rel=\"noopener noreferrer\">" ++
                  adHtml ++ "</a>"
              else adHtml
          | none => adHtml
        { w with html := renderClone customRef inner }
    | none => w
  else
    let siblings := placed.filter fun n => n.nid ≠ w.nid && !isMarker n
    let wr := replicateSiblingStyles w siblings
    { wr with html := adHtml }

/-- One `sendAd` call: the container and its queue entry afterwards. -/
def sendAd (env : SendEnv) (adHtmlArr : List String) (container : Container)
    (queue : Option (List String)) (r : RandInput) :
    Container × Option (List String) :=
  if isSlot container then
    -- Preset slot branch (lines 169-221): reuse the wrapper found by
    -- `querySelector('.ad-send-banner')`, or wipe the container
    -- (`innerHTML = ''`) and append a fresh one; then inject the next ad.
    let found := container.children.find? fun n => isMarker n
    let w := found.getD (newWrapper r.freshId)
    let base := if found.isSome then container.children else [w]
    let drawn := getNextAd r.tape adHtmlArr queue
    let w' := { w with html := drawn.1.getD "undefined" }
    ({ container with
        children := base.map fun n => if n.nid = w.nid then w' else n },
      some drawn.2)
  else
    let adWrapper := container.children.find? fun n => isMarker n
    let children := container.children.filter fun n => !isMarker n
    if children.length < 3 then (container, queue)
    else
      match chooseIdx container.adIndex children.length r.rIdx with
      | none => (container, queue)
      | some (idx, adIndex') =>
        match children.get? idx with
        | none => (container, queue)  -- unreachable: `chooseIdx` yields idx < len
        | some refNode =>
          let placed :=
            match adWrapper with
            | none => insertAfterNid (newWrapper r.freshId) refNode.nid
                container.children
            | some w =>
                if prevSiblingNid container.children w.nid = some refNode.nid
                then container.children
                else insertAfterNid w refNode.nid
                  (container.children.filter fun n => n.nid ≠ w.nid)
          let w0 := adWrapper.getD (newWrapper r.freshId)
          let drawn := getNextAd r.tape adHtmlArr queue
          let w1 := fillWrapper env placed w0 (drawn.1.getD "undefined")
          let w2 := animateAdEntry r.rAnim w1
          ({ container with
              children := placed.map fun n => if n.nid = w0.nid then w2 else n,
              adIndex := adIndex' },
            some drawn.2)

/-! ### Counting ad wrappers -/

/-- Here `countMarker l` is the number of elements of `l` carrying the marker
class; `wrapperCount c = countMarker c.children` by definition. -/
def countMarker (l : List Node) : Nat := (l.filter fun n => isMarker n).length

/-! ### Concrete fixtures for witnesses -/

/-- A plain `<p>` child with identity `i`. -/
def plainNode (i : Nat) (content : String) : Node :=
  { nid := i, tag := "p", classes := [], idAttr := "", displayNone := false,
    html := content }

/-- A generic container with the given children. -/
def plainContainer (children : List Node) : Container :=
  { classes := [], idAttr := "", children := children, adIndex := none }

/-- Module state with no `copySiblingSelector`. -/
def plainEnv : SendEnv :=
  { copySiblingSelector := none, gBanners := ["b"], adConfigBanners := none,
    matchesSel := fun _ _ => false }

/-- A fixed random input. -/
def someRand : RandInput :=
  { tape := fun _ => 0, rIdx := 0, rAnim := 0, freshId := 7 }

/-- Witness helper: a generic container with four plain children and a
persisted in-bounds index. -/
def fourKids : List Node :=
  [plainNode 0 "a", plainNode 1 "b", plainNode 2 "c", plainNode 3 "d"]

/-- Witness fixture for C3: four plain children, persisted index 2. -/
def idxContainer : Container :=
  { classes := [], idAttr := "", children := fourKids, adIndex := some 2 }

/-- A sequence of `sendAd` calls on one container (e.g. the per-container
effect of successive rotation ticks), threading its queue entry. -/
def sendAdIter (env : SendEnv) :
    List (List String × RandInput) → Container × Option (List String) →
      Container × Option (List String)
  | [], s => s
  | step :: rest, s => sendAdIter env rest (sendAd env step.1 s.1 s.2 step.2)

/-! ## Config fetch (lines 350-395) and initialisation (lines 419-444)

`fetchAllBannersFromFile` is `async`: its `fetch`/`res.json()` outcome is
supplied as an explicit `FetchOutcome`.  The function's effect on module
state is modelled on `AdState`; the returned `Bool` records whether the
`catch` block logged (`console.error`). -/

/-- One entry of a config's `containers` array: a selector string or a
`{name}` object (`typeof` distinguishes them). -/
inductive ContainerSpec where
  | str : String → ContainerSpec
  | obj : Option String → ContainerSpec
deriving Repr, DecidableEq

/-- One per-site entry of `ad-config.json`.  `containers = none` models a
missing/non-array field (`Array.isArray` fails); `banners = none` a
missing/falsy one (`config.banners || []`). -/
structure PropertyConfig where
  property_id : Option String
  url : Option String
  containers : Option (List ContainerSpec)
  banners : Option (List BannerCfg)
  copySiblingSelector : Option String
deriving Repr, DecidableEq

/-- Result of `res.json()`. -/
inductive JsonBody where
  | malformed
  | nonArray
  | arr : List PropertyConfig → JsonBody
deriving Repr, DecidableEq

/-- Result of `fetch(configUrl)`. -/
inductive FetchOutcome where
  | netError
  | response : Bool → JsonBody → FetchOutcome
deriving Repr, DecidableEq

/-- The module-level mutable state of the script (lines 130-131, 350-353,
359) plus `window._adConfigBanners` (line 372).  `adQueues` keys the
per-container `WeakMap` by container identity. -/
structure AdState where
  banners : List String
  bannerIndex : Nat
  containerSelectors : List ContainerSpec
  rotationOffset : Nat
  copySiblingSelector : Option String
  adConfigBanners : Option (List BannerCfg)
  adQueues : List (Nat × List String)
  adRotationQueue : List String
deriving Repr, DecidableEq

/-- Lines 380-388: rebuild one banner's markup (empty string when no
`imageUrl`; the empty results are dropped by `.filter(Boolean)`). -/
def bannerHtml (b : BannerCfg) : String :=
  if jsTruthy b.imageUrl && jsTruthy b.targetUrl then
    "<a href=\"" ++ b.targetUrl.getD ""
      ++ "\" target=\"_blank\" rel=\"noopener noreferrer\"><img src=\""
      ++ b.imageUrl.getD ""
      ++ "\" alt=\"ad\" class=\"ad-img-anim\" style=\"max-width:100%;height:auto;display:block;\" /></a>"
  else if jsTruthy b.imageUrl then
    "<img src=\"" ++ b.imageUrl.getD ""
      ++ "\" alt=\"ad\" class=\"ad-img-anim\" style=\"max-width:100%;height:auto;display:block;\" />"
  else ""

/-- JS `c.name`: `undefined` on a plain selector string. -/
def specName : ContainerSpec → Option String
  | .str _ => none
  | .obj n => n

/-- Lines 376-379: keep the `containers` array as-is unless its first entry
is an object with a truthy `name` — then project every entry to its `name`
and drop the falsy ones. -/
def extractSelectors (cs : List ContainerSpec) : List ContainerSpec :=
  match cs with
  | [] => []
  | first :: _ =>
    match first with
    | .obj n =>
        if jsTruthy n then
          ((cs.filterMap specName).filter fun s => !s.isEmpty).map
            ContainerSpec.str
        else cs
    | .str _ => cs

/-- Lines 360-395 (`fetchAllBannersFromFile`): new module state and whether
the `catch` block logged.  Only thrown errors (network failure, malformed
JSON) reach the `catch`; `!res.ok`, a non-array body, a missing matching
entry and a URL-prefix mismatch `return` silently. -/
def fetchAllBannersFromFile (propertyId pageUrl : String) (freshOffset : Nat)
    (outcome : FetchOutcome) (st : AdState) : AdState × Bool :=
  match outcome with
  | .netError => (st, true)
  | .response ok body =>
    if !ok then (st, false)
    else
      match body with
      | .malformed => (st, true)
      | .nonArray => (st, false)
      | .arr configs =>
        match configs.find? fun cfg => cfg.property_id == some propertyId with
        | none => (st, false)
        | some config =>
          let st1 := { st with adConfigBanners := some (config.banners.getD []) }
          if jsTruthy config.url
              && !(pageUrl.startsWith (config.url.getD "")) then
            (st1, false)
          else
            ({ st1 with
                containerSelectors := extractSelectors (config.containers.getD []),
                banners := ((config.banners.getD []).map bannerHtml).filter
                  fun s => !s.isEmpty,
                copySiblingSelector :=
                  if jsTruthy config.copySiblingSelector then
                    config.copySiblingSelector
                  else none,
                bannerIndex := 0,
                rotationOffset := freshOffset }, false)

/-- The two repeating timers `initAdInjector` can start. -/
inductive TimerKind where
  | rotate
  | refetch
deriving Repr, DecidableEq

/-- Lines 423-444 (`initAdInjector`), timer decision: after the awaited
fetch, an empty selector list logs and `return`s before any timer is set;
otherwise `setInterval(rotateAdSlots, 10000)` and
`setInterval(fetchAllBannersFromFile, 5 * 60 * 1000)` run exactly when
`banners.length > 1`.  (The placement loop in between touches neither
`banners` nor `containerSelectors`.) -/
def initAdInjectorTimers (st : AdState) : List (Nat × TimerKind) :=
  if st.containerSelectors.isEmpty then []
  else if st.banners.length > 1 then
    [(10000, TimerKind.rotate), (5 * 60 * 1000, TimerKind.refetch)]
  else []

/-- Lines 400-415 (`rotateAdSlots`): re-place an ad in every matched
container, in shuffled order; `allContainers` carries each resolved
container with its `WeakMap` queue entry, `rs` the per-call random input. -/
def rotateAdSlots (env : SendEnv) (banners : List String)
    (containerSelectors : List ContainerSpec)
    (allContainers : List (Container × Option (List String)))
    (tape : Nat → Nat) (rs : Nat → RandInput) :
    List (Container × Option (List String)) :=
  if banners.isEmpty then allContainers
  else if containerSelectors.isEmpty then allContainers
  else if allContainers.isEmpty then allContainers
  else
    (shuffle tape allContainers).enum.map fun p =>
      sendAd env banners p.2.1 p.2.2 (rs p.1)

/-! ### Fixtures for the fetch/init claims -/

/-- A state mid-run: stale per-container and global queues. -/
def preState : AdState :=
  { banners := ["old1", "old2"], bannerIndex := 5,
    containerSelectors := [ContainerSpec.str ".c"], rotationOffset := 3,
    copySiblingSelector := none, adConfigBanners := none,
    adQueues := [(0, ["old1"])], adRotationQueue := ["old2"] }

/-- A freshly served config with two new banners. -/
def newCfg : PropertyConfig :=
  { property_id := some "site", url := none,
    containers := some [ContainerSpec.str ".c"],
    banners := some [{ imageUrl := some "http://x/new1.png", targetUrl := none },
      { imageUrl := some "http://x/new2.png", targetUrl := none }],
    copySiblingSelector := none }

/-- An initialised state with two banners but no container selectors. -/
def noSelState : AdState :=
  { banners := ["a", "b"], bannerIndex := 0, containerSelectors := [],
    rotationOffset := 0, copySiblingSelector := none,
    adConfigBanners := none, adQueues := [], adRotationQueue := [] }

/-! ## Theorems -/

/-- Writing an element read from position `j` in front of the list set at `j`
is a permutation: `x :: l.set j y ~ y :: l` when `l[j] = x`. -/
theorem cons_set_perm (l : List α) (j : Nat) (x y : α)
    (hx : l.get? j = some x) : (x :: l.set j y).Perm (y :: l) := by
  induction l generalizing j with
  | nil => simp at hx
  | cons b r ih =>
    cases j with
    | zero =>
      simp only [List.get?] at hx
      cases hx
      simpa [List.set] using List.Perm.swap y x r
    | succ k =>
      simp only [List.get?] at hx
      have h1 : (x :: b :: r.set k y).Perm (b :: x :: r.set k y) :=
        List.Perm.swap b x _
      have h2 : (b :: x :: r.set k y).Perm (b :: y :: r) :=
        List.Perm.cons b (ih k hx)
      have h3 : (b :: y :: r).Perm (y :: b :: r) := List.Perm.swap y b r
      simpa [List.set] using (h1.trans h2).trans h3

/-- The two-`set` swap of in-bounds positions is a permutation. -/
theorem set_set_perm (l : List α) (m i : Nat) (t u : α)
    (hm : l.get? m = some t) (hi : l.get? i = some u) :
    ((l.set m u).set i t).Perm l := by
  induction l generalizing m i with
  | nil => simp at hm
  | cons a r ih =>
    cases m with
    | zero =>
      simp only [List.get?] at hm
      cases hm
      cases i with
      | zero =>
        simp only [List.get?] at hi
        cases hi
        simp [List.set]
      | succ j =>
        simp only [List.get?] at hi
        simpa [List.set] using cons_set_perm r j u t hi
    | succ k =>
      cases i with
      | zero =>
        simp only [List.get?] at hm hi
        cases hi
        simpa [List.set] using cons_set_perm r k t u hm
      | succ j =>
        simp only [List.get?] at hm hi
        simpa [List.set] using List.Perm.cons a (ih k j hm hi)

/-- Swapping via `jsSwap` always permutes. -/
theorem jsSwap_perm (l : List α) (m i : Nat) : (jsSwap l m i).Perm l := by
  unfold jsSwap
  cases hm : l.get? m with
  | none => rfl
  | some t =>
    cases hi : l.get? i with
    | none => rfl
    | some u => exact set_set_perm l m i t u hm hi

/-- Every run of the shuffle loop permutes its input. -/
theorem shuffleGo_perm (rnd : Nat → Nat) (m : Nat) (l : List α) :
    (shuffleGo rnd m l).Perm l := by
  induction m generalizing l with
  | zero => rfl
  | succ n ih => exact (ih _).trans (jsSwap_perm l n (rnd (n + 1)))

/-- The `shuffle` function returns a permutation of its input. -/
theorem shuffle_perm (rnd : Nat → Nat) (l : List α) : (shuffle rnd l).Perm l :=
  shuffleGo_perm rnd l.length l

/-- A nonempty stored queue is consumed as-is, one element per call, with no
reshuffle until it runs out. -/
theorem drawSeq_consumes (tapes : Nat → Nat → Nat) (banners : List String)
    (q : List String) : ∀ k, drawSeq tapes banners k q.length (some q) = q.map some := by
  induction q with
  | nil => intro k; rfl
  | cons a rest ih =>
    intro k
    simp only [List.length_cons, drawSeq, getNextAd, List.isEmpty_cons,
      List.head?_cons, List.tail_cons, List.map_cons, List.cons.injEq]
    exact ⟨rfl, ih (k + 1)⟩

/-- Claim C1. For a non-empty banner list and a fixed container whose queue
starts absent (or empty), one full cycle of `getNextAd` calls returns
exactly one fresh shuffle of the banner list — a permutation — so with
distinct banners no banner is returned twice before every other banner has
been returned once; and a non-empty stored queue is never reshuffled
(refill happens only on an empty queue). -/
theorem getNextAd_cycle_fair (tapes : Nat → Nat → Nat) (banners : List String)
    (hne : banners ≠ []) :
    drawSeq tapes banners 0 banners.length none
        = (shuffle (tapes 0) banners).map some
    ∧ (shuffle (tapes 0) banners).Perm banners
    ∧ (banners.Nodup → (drawSeq tapes banners 0 banners.length none).Nodup)
    ∧ (∀ q : List String, q ≠ [] →
        getNextAd (tapes 0) banners (some q) = (q.head?, q.tail)) := by
  have hperm : (shuffle (tapes 0) banners).Perm banners := shuffle_perm _ _
  have hlen : (shuffle (tapes 0) banners).length = banners.length :=
    hperm.length_eq
  have hout : drawSeq tapes banners 0 banners.length none
      = (shuffle (tapes 0) banners).map some := by
    cases hs : shuffle (tapes 0) banners with
    | nil =>
      exact absurd (List.length_eq_zero.mp (by rw [← hlen, hs, List.length_nil]))
        hne
    | cons h t =>
      have hblen : banners.length = t.length + 1 := by
        rw [← hlen, hs, List.length_cons]
      rw [hblen]
      simp only [drawSeq, getNextAd, hs, List.head?_cons, List.tail_cons,
        List.map_cons, List.cons.injEq]
      exact ⟨trivial, drawSeq_consumes tapes banners t 1⟩
  refine ⟨hout, hperm, ?_, ?_⟩
  · intro hnd
    rw [hout]
    exact ((hperm.nodup_iff).mpr hnd).map (Option.some_injective _)
  · intro q hq
    simp [getNextAd, List.isEmpty_iff, hq]

/-- Witness for C1 at `banners = ["a", "b"]` and the constant-zero tape. -/
theorem getNextAd_cycle_fair_witness :
    (["a", "b"] : List String) ≠ []
    ∧ (drawSeq (fun _ _ => 0) ["a", "b"] 0 (["a", "b"] : List String).length none
          = (shuffle ((fun (_ : Nat) (_ : Nat) => (0 : Nat)) 0) ["a", "b"]).map some
      ∧ (shuffle ((fun (_ : Nat) (_ : Nat) => (0 : Nat)) 0) ["a", "b"]).Perm
          ["a", "b"]
      ∧ ((["a", "b"] : List String).Nodup →
          (drawSeq (fun _ _ => 0) ["a", "b"] 0
            (["a", "b"] : List String).length none).Nodup)
      ∧ (∀ q : List String, q ≠ [] →
          getNextAd ((fun (_ : Nat) (_ : Nat) => (0 : Nat)) 0) ["a", "b"] (some q)
            = (q.head?, q.tail))) :=
  ⟨by decide, getNextAd_cycle_fair (fun _ _ => 0) ["a", "b"] (by decide)⟩

/-- Claim C9. The `shuffle` function returns a permutation of its input whenever every
random draw is in range (`Math.floor(Math.random() * m) < m`, as in the
browser): same length and same multiset of elements. -/
theorem shuffle_is_permutation (rnd : Nat → Nat)
    (hr : ∀ m, 0 < m → rnd m < m) (l : List String) :
    (shuffle rnd l).Perm l
    ∧ (shuffle rnd l).length = l.length
    ∧ ∀ a, (shuffle rnd l).count a = l.count a := by
  have h := shuffle_perm rnd l
  exact ⟨h, h.length_eq, fun a => h.count_eq a⟩

/-- Witness for C9 at `l = ["x", "y", "z"]` and the constant-zero tape. -/
theorem shuffle_is_permutation_witness :
    (∀ m : Nat, 0 < m → (fun (_ : Nat) => (0 : Nat)) m < m)
    ∧ ((shuffle (fun _ => 0) ["x", "y", "z"]).Perm ["x", "y", "z"]
      ∧ (shuffle (fun _ => 0) ["x", "y", "z"]).length
          = (["x", "y", "z"] : List String).length
      ∧ ∀ a, (shuffle (fun _ => 0) ["x", "y", "z"]).count a
          = (["x", "y", "z"] : List String).count a) :=
  ⟨fun _ h => h, shuffle_is_permutation (fun _ => 0) (fun _ h => h) ["x", "y", "z"]⟩

/-- Inserting a node adds it once, anywhere: filtered lengths grow by its
own contribution. -/
theorem insertAfterNid_filter_length (p : Node → Bool) (w : Node) (rid : Nat)
    (l : List Node) :
    ((insertAfterNid w rid l).filter p).length
      = (l.filter p).length + (if p w then 1 else 0) := by
  induction l with
  | nil => by_cases h : p w <;> simp [insertAfterNid, h]
  | cons n rest ih =>
    by_cases hn : n.nid = rid
    · by_cases h : p w <;> by_cases hpn : p n <;>
        simp [insertAfterNid, hn, h, hpn, Nat.add_comm, Nat.add_assoc,
          Nat.add_left_comm]
    · by_cases hpn : p n <;> simp [insertAfterNid, hn, hpn, ih] <;> omega

/-- Replacing every node of identity `wid` by a marker node `w2`: marker
count afterwards is the marker count away from `wid` plus the number of
nodes at `wid`. -/
theorem countMarker_map_replace (l : List Node) (wid : Nat) (w2 : Node)
    (hm2 : isMarker w2 = true) :
    countMarker (l.map fun n => if n.nid = wid then w2 else n)
      = countMarker (l.filter fun n => n.nid ≠ wid)
        + (l.filter fun n => n.nid = wid).length := by
  induction l with
  | nil => rfl
  | cons n rest ih =>
    by_cases hn : n.nid = wid
    · simp [countMarker, hn, hm2, List.filter] at ih ⊢
      omega
    · by_cases hpn : isMarker n <;>
        · simp [countMarker, hn, hpn, List.filter] at ih ⊢
          omega

/-- Mapping by any identity-preserving function leaves the identity list
unchanged. -/
theorem map_nid_invariant (l : List Node) (f : Node → Node)
    (hf : ∀ n, (f n).nid = n.nid) :
    (l.map f).map (·.nid) = l.map (·.nid) := by
  rw [List.map_map]
  exact List.map_congr_left fun n _ => hf n

/-- With pairwise distinct identities, the nodes at a member's identity are
exactly that member. -/
theorem filter_nid_eq_of_nodup (l : List Node) (w : Node)
    (hnd : (l.map (·.nid)).Nodup) (hw : w ∈ l) :
    l.filter (fun n => n.nid = w.nid) = [w] := by
  induction l with
  | nil => simp at hw
  | cons n rest ih =>
    rw [List.map_cons, List.nodup_cons] at hnd
    rcases List.mem_cons.mp hw with rfl | hwr
    · have hrest : rest.filter (fun n => n.nid = w.nid) = [] := by
        rw [List.filter_eq_nil_iff]
        intro m hm hmw
        exact hnd.1 (by
          simpa using List.mem_map.mpr ⟨m, hm, by simpa using hmw⟩)
      simp [List.filter, hrest]
    · have hne : n.nid ≠ w.nid := by
        intro he
        exact hnd.1 (he ▸ List.mem_map.mpr ⟨w, hwr, rfl⟩)
      simp [List.filter, hne, ih hnd.2 hwr]

/-- A container holding exactly one wrapper: the marker filter is the
singleton of the node `querySelector` finds. -/
theorem marker_filter_singleton (l : List Node) (w : Node)
    (hone : countMarker l = 1)
    (hfind : l.find? (fun n => isMarker n) = some w) :
    l.filter (fun n => isMarker n) = [w] := by
  obtain ⟨x, hx⟩ := List.length_eq_one.mp hone
  have hwmem : w ∈ l.filter fun n => isMarker n :=
    List.mem_filter.mpr ⟨List.mem_of_find?_eq_some hfind,
      List.find?_some hfind⟩
  rw [hx] at hwmem ⊢
  simpa using (List.mem_singleton.mp hwmem) ▸ rfl

/-- Away from the unique wrapper's identity there is no marker node. -/
theorem countMarker_filter_ne (l : List Node) (w : Node)
    (hsing : l.filter (fun n => isMarker n) = [w]) :
    countMarker (l.filter fun n => n.nid ≠ w.nid) = 0 := by
  unfold countMarker
  rw [List.filter_filter, List.length_eq_zero, List.filter_eq_nil_iff]
  intro n hn hcond
  obtain ⟨h1, h2⟩ := Bool.and_eq_true_iff.mp hcond
  have hmem : n ∈ l.filter fun n => isMarker n := List.mem_filter.mpr ⟨hn, h1⟩
  rw [hsing, List.mem_singleton] at hmem
  have hne : n.nid ≠ w.nid := by simpa using h2
  exact hne (by rw [hmem])

/-- A container with no wrapper has no marker node at all. -/
theorem countMarker_of_find?_none (l : List Node)
    (h : l.find? (fun n => isMarker n) = none) :
    l.filter (fun n => isMarker n) = [] := by
  rw [List.filter_eq_nil_iff]
  intro n hn
  simpa using List.find?_eq_none.mp h n hn

/-! ### Bounds of the insertion index -/

/-- Every index `chooseIdx` can produce for `len ≥ 3` children lies strictly
between the first and the last child, and is what the attribute records. -/
theorem chooseIdx_bounds (a : Option Int) (len rIdx : Nat) (idx : Nat)
    (a' : Option Int) (hlen : 3 ≤ len)
    (h : chooseIdx a len rIdx = some (idx, a')) :
    1 ≤ idx ∧ idx ≤ len - 2 ∧ a' = some (idx : Int) := by
  cases a with
  | some i =>
    simp only [chooseIdx] at h
    by_cases hc : (decide (i < 1) || decide (i ≥ (len : Int) - 1)) = true
    · rw [if_pos hc] at h
      cases h
      refine ⟨le_refl 1, by omega, by norm_num⟩
    · rw [if_neg hc] at h
      cases h
      simp only [Bool.or_eq_true, not_or, Bool.not_eq_true,
        decide_eq_false_iff_not, not_lt, ge_iff_le, not_le] at hc
      obtain ⟨h1, h2⟩ := hc
      refine ⟨by omega, by omega, by
        simp [Int.toNat_of_nonneg (by omega : (0 : Int) ≤ i)]⟩
  | none =>
    simp only [chooseIdx] at h
    cases hg : (List.range' 1 (len - 2)).get? rIdx with
    | none => rw [hg] at h; cases h
    | some j =>
      rw [hg] at h
      have h' : j = idx ∧ some (j : Int) = a' := by simpa using h
      obtain ⟨rfl, rfl⟩ := h'
      have hmem : j ∈ List.range' 1 (len - 2) := List.get?_mem hg
      rw [List.mem_range'_1] at hmem
      exact ⟨hmem.1, by omega, rfl⟩

/-- Claim C4. A generic (non-slot) container with fewer than 3 non-ad child
elements is skipped: `sendAd` changes neither the container (no wrapper is
created or inserted, no attribute is written) nor its queue. -/
theorem sendAd_skips_small_container (env : SendEnv) (adHtmlArr : List String)
    (container : Container) (queue : Option (List String)) (r : RandInput)
    (hslot : isSlot container = false)
    (hsmall : (container.children.filter fun n => !isMarker n).length < 3) :
    sendAd env adHtmlArr container queue r = (container, queue) := by
  simp [sendAd, hslot, hsmall]

/-- Witness for C4: a generic container with two plain children. -/
theorem sendAd_skips_small_container_witness :
    isSlot (plainContainer [plainNode 0 "x", plainNode 1 "y"]) = false
    ∧ ((plainContainer [plainNode 0 "x", plainNode 1 "y"]).children.filter
        fun n => !isMarker n).length < 3
    ∧ sendAd plainEnv ["b"] (plainContainer [plainNode 0 "x", plainNode 1 "y"])
        none someRand
      = (plainContainer [plainNode 0 "x", plainNode 1 "y"], none) :=
  ⟨by decide, by decide,
    sendAd_skips_small_container _ _ _ _ _ (by decide) (by decide)⟩

/-- When a generic placement happens (enough children, index chosen), the
`data-ad-index` attribute afterwards is what `chooseIdx` recorded. -/
theorem sendAd_adIndex (env : SendEnv) (adHtmlArr : List String)
    (c : Container) (queue : Option (List String)) (r : RandInput)
    (hslot : isSlot c = false)
    (hlen : ¬ (c.children.filter fun n => !isMarker n).length < 3)
    (idx : Nat) (a' : Option Int)
    (hch : chooseIdx c.adIndex
        (c.children.filter fun n => !isMarker n).length r.rIdx
      = some (idx, a'))
    (hidx : idx < (c.children.filter fun n => !isMarker n).length) :
    (sendAd env adHtmlArr c queue r).1.adIndex = a' := by
  cases hget : (c.children.filter fun n => !isMarker n).get? idx with
  | none =>
    exact absurd (List.get?_eq_none.mp hget) (by omega)
  | some ref =>
    simp only [sendAd, hslot, Bool.false_eq_true, if_false, hlen, hch, hget]

/-- Claim C3. On a generic container whose `data-ad-index` already holds an
index `i` with `1 ≤ i < len - 1` (`len` = number of non-ad children), a
placement uses exactly `i` again and leaves the attribute at `i`; an
out-of-bounds persisted index is replaced by 1 instead. -/
theorem sendAd_persisted_index_stable (env : SendEnv)
    (adHtmlArr : List String) (c : Container) (queue : Option (List String))
    (r : RandInput) (i : Int)
    (hslot : isSlot c = false)
    (hattr : c.adIndex = some i)
    (hlo : 1 ≤ i)
    (hhi : i < ((c.children.filter fun n => !isMarker n).length : Int) - 1) :
    chooseIdx c.adIndex (c.children.filter fun n => !isMarker n).length r.rIdx
        = some (i.toNat, some i)
    ∧ (sendAd env adHtmlArr c queue r).1.adIndex = some i
    ∧ (∀ (j : Int) (rI : Nat),
        (j < 1 ∨ ((c.children.filter fun n => !isMarker n).length : Int) - 1 ≤ j) →
        chooseIdx (some j) (c.children.filter fun n => !isMarker n).length rI
          = some (1, some 1)) := by
  have h1 : ¬ i < 1 := not_lt.mpr hlo
  have h2 : ¬ i ≥ ((c.children.filter fun n => !isMarker n).length : Int) - 1 :=
    not_le.mpr hhi
  have hch : chooseIdx c.adIndex
      (c.children.filter fun n => !isMarker n).length r.rIdx
      = some (i.toNat, some i) := by
    simp [chooseIdx, hattr, h1, h2]
  have hlen3 : 3 ≤ (c.children.filter fun n => !isMarker n).length := by omega
  have hidx : i.toNat < (c.children.filter fun n => !isMarker n).length := by
    omega
  refine ⟨hch, sendAd_adIndex env adHtmlArr c queue r hslot (by omega) _ _
      hch hidx, ?_⟩
  intro j rI hj
  rcases hj with hj | hj
  · simp [chooseIdx, hj]
  · simp [chooseIdx, hj]

/-- Witness for C3 at `idxContainer`. -/
theorem sendAd_persisted_index_stable_witness :
    isSlot idxContainer = false
    ∧ idxContainer.adIndex = some 2
    ∧ (1 : Int) ≤ 2
    ∧ ((2 : Int) < ((idxContainer.children.filter
        fun n => !isMarker n).length : Int) - 1)
    ∧ (chooseIdx idxContainer.adIndex
        (idxContainer.children.filter fun n => !isMarker n).length
          someRand.rIdx
          = some ((2 : Int).toNat, some 2)
      ∧ (sendAd plainEnv ["b"] idxContainer none someRand).1.adIndex = some 2
      ∧ (∀ (j : Int) (rI : Nat),
          (j < 1 ∨ ((idxContainer.children.filter
              fun n => !isMarker n).length : Int) - 1 ≤ j) →
          chooseIdx (some j)
            (idxContainer.children.filter fun n => !isMarker n).length rI
            = some (1, some 1))) :=
  ⟨by decide, by decide, by decide, by decide,
    sendAd_persisted_index_stable plainEnv ["b"] _ none someRand 2 (by decide)
      (by decide) (by decide) (by decide)⟩

/-- Claim C7. Whenever a generic container with `len ≥ 3` non-ad children gets
an index from `chooseIdx` (fresh, persisted, or reset), that index is
strictly between the first and last child — `1 ≤ idx ≤ len - 2` — and is
what the placement persists in `data-ad-index`. -/
theorem sendAd_index_strictly_interior (env : SendEnv)
    (adHtmlArr : List String) (c : Container) (queue : Option (List String))
    (r : RandInput) (idx : Nat) (a' : Option Int)
    (hslot : isSlot c = false)
    (hlen3 : 3 ≤ (c.children.filter fun n => !isMarker n).length)
    (hch : chooseIdx c.adIndex
        (c.children.filter fun n => !isMarker n).length r.rIdx
      = some (idx, a')) :
    1 ≤ idx
    ∧ idx ≤ (c.children.filter fun n => !isMarker n).length - 2
    ∧ (sendAd env adHtmlArr c queue r).1.adIndex = some (idx : Int) := by
  obtain ⟨hlo, hhi, ha⟩ := chooseIdx_bounds _ _ _ _ _ hlen3 hch
  refine ⟨hlo, hhi, ?_⟩
  rw [← ha]
  exact sendAd_adIndex env adHtmlArr c queue r hslot (by omega) _ _ hch
    (by omega)

/-- Witness for C7: three plain children, fresh pick lands on index 1. -/
theorem sendAd_index_strictly_interior_witness :
    isSlot (plainContainer [plainNode 0 "a", plainNode 1 "b", plainNode 2 "c"])
        = false
    ∧ 3 ≤ ((plainContainer
        [plainNode 0 "a", plainNode 1 "b", plainNode 2 "c"]).children.filter
          fun n => !isMarker n).length
    ∧ chooseIdx (plainContainer
          [plainNode 0 "a", plainNode 1 "b", plainNode 2 "c"]).adIndex
        ((plainContainer
          [plainNode 0 "a", plainNode 1 "b", plainNode 2 "c"]).children.filter
            fun n => !isMarker n).length someRand.rIdx
        = some (1, some 1)
    ∧ (1 ≤ 1
      ∧ 1 ≤ ((plainContainer
          [plainNode 0 "a", plainNode 1 "b", plainNode 2 "c"]).children.filter
            fun n => !isMarker n).length - 2
      ∧ (sendAd plainEnv ["b"]
          (plainContainer [plainNode 0 "a", plainNode 1 "b", plainNode 2 "c"])
          none someRand).1.adIndex = some (1 : Int)) :=
  ⟨by decide, by decide, by decide,
    sendAd_index_strictly_interior plainEnv ["b"] _ none someRand 1 (some 1)
      (by decide) (by decide) (by decide)⟩

/-! ### The wrapper transformations keep identity and the marker class -/

/-- Style replication keeps the node's identity. -/
theorem replicateSiblingStyles_nid (w : Node) (siblings : List Node) :
    (replicateSiblingStyles w siblings).nid = w.nid := by
  unfold replicateSiblingStyles
  cases siblings.find? fun el => el.nid ≠ w.nid && !el.displayNone <;> rfl

/-- Style replication keeps (re-adds) the marker class. -/
theorem replicateSiblingStyles_marker (w : Node) (siblings : List Node)
    (hm : isMarker w = true) :
    isMarker (replicateSiblingStyles w siblings) = true := by
  unfold replicateSiblingStyles
  cases siblings.find? fun el => el.nid ≠ w.nid && !el.displayNone with
  | none => exact hm
  | some ref =>
    exact List.elem_eq_true_of_mem (by simp)

/-- Content filling keeps the node's identity. -/
theorem fillWrapper_nid (env : SendEnv) (placed : List Node) (w : Node)
    (s : String) : (fillWrapper env placed w s).nid = w.nid := by
  unfold fillWrapper
  by_cases hc : jsTruthy env.copySiblingSelector = true
  · rw [if_pos hc]
    cases placed.find? (env.matchesSel (env.copySiblingSelector.getD "")) <;>
      rfl
  · rw [if_neg hc]
    exact replicateSiblingStyles_nid w _

/-- Content filling keeps the marker class. -/
theorem fillWrapper_marker (env : SendEnv) (placed : List Node) (w : Node)
    (s : String) (hm : isMarker w = true) :
    isMarker (fillWrapper env placed w s) = true := by
  unfold fillWrapper
  by_cases hc : jsTruthy env.copySiblingSelector = true
  · rw [if_pos hc]
    cases placed.find? (env.matchesSel (env.copySiblingSelector.getD "")) <;>
      exact hm
  · rw [if_neg hc]
    exact replicateSiblingStyles_marker w _ hm

/-- Animation class toggling keeps the node's identity. -/
theorem animateAdEntry_nid (rAnim : Nat) (w : Node) :
    (animateAdEntry rAnim w).nid = w.nid := by
  simp only [animateAdEntry]
  cases h : (["ad-flip-in", "ad-bounce-in", "ad-fade-in",
    "ad-slide-in"] : List String).get? rAnim <;> simp [h]

/-- Animation class toggling keeps the marker class (not an animation class). -/
theorem animateAdEntry_marker (rAnim : Nat) (w : Node)
    (hm : isMarker w = true) : isMarker (animateAdEntry rAnim w) = true := by
  have hmem : "ad-send-banner" ∈ w.classes := List.mem_of_elem_eq_true hm
  have hkept : "ad-send-banner" ∈ w.classes.filter
      fun c => !(["ad-flip-in", "ad-bounce-in", "ad-fade-in",
        "ad-slide-in"] : List String).contains c :=
    List.mem_filter.mpr ⟨hmem, by decide⟩
  simp only [animateAdEntry]
  cases h : (["ad-flip-in", "ad-bounce-in", "ad-fade-in",
      "ad-slide-in"] : List String).get? rAnim with
  | none => simp only [h]; exact List.elem_eq_true_of_mem hkept
  | some anim =>
    simp only [h]
    exact List.elem_eq_true_of_mem (List.mem_append.mpr (Or.inl hkept))

/-! ### `insertAfterNid` and node identities -/

/-- Inserting after a reference adds the new identity, as a permutation. -/
theorem insertAfterNid_map_nid_perm (w : Node) (rid : Nat) (l : List Node) :
    ((insertAfterNid w rid l).map (·.nid)).Perm (w.nid :: l.map (·.nid)) := by
  induction l with
  | nil => simp [insertAfterNid]
  | cons n rest ih =>
    by_cases hn : n.nid = rid
    · simp only [insertAfterNid, if_pos hn, List.map_cons]
      exact List.Perm.swap w.nid n.nid _
    · simp only [insertAfterNid, if_neg hn, List.map_cons]
      exact (ih.cons n.nid).trans (List.Perm.swap w.nid n.nid _)

/-- Moving the wrapper (remove + reinsert) keeps identities pairwise
distinct. -/
theorem move_nodup (l : List Node) (w : Node) (rid : Nat)
    (hnd : (l.map (·.nid)).Nodup) :
    ((insertAfterNid w rid (l.filter fun n => n.nid ≠ w.nid)).map
      (·.nid)).Nodup := by
  have hsub : ((l.filter fun n => n.nid ≠ w.nid).map (·.nid)).Sublist
      (l.map (·.nid)) := (List.filter_sublist l).map _
  have hnd' : ((l.filter fun n => n.nid ≠ w.nid).map (·.nid)).Nodup :=
    hnd.sublist hsub
  have hnotin : w.nid ∉ (l.filter fun n => n.nid ≠ w.nid).map (·.nid) := by
    intro hmem
    obtain ⟨n, hn, he⟩ := List.mem_map.mp hmem
    have := List.of_mem_filter hn
    simp only [decide_eq_true_eq] at this
    exact this he
  exact ((insertAfterNid_map_nid_perm w rid _).nodup_iff).mpr
    (List.nodup_cons.mpr ⟨hnotin, hnd'⟩)

/-- Inserting a genuinely fresh wrapper keeps identities pairwise
distinct. -/
theorem create_nodup (l : List Node) (w : Node) (rid : Nat)
    (hnd : (l.map (·.nid)).Nodup) (hfresh : w.nid ∉ l.map (·.nid)) :
    ((insertAfterNid w rid l).map (·.nid)).Nodup :=
  ((insertAfterNid_map_nid_perm w rid l).nodup_iff).mpr
    (List.nodup_cons.mpr ⟨hfresh, hnd⟩)

/-! ### Wrapper counts after each placement shape -/

/-- Re-using the unique wrapper in place: still exactly one wrapper. -/
theorem countMarker_replace_unique (l : List Node) (w w2 : Node)
    (hnd : (l.map (·.nid)).Nodup)
    (hsing : l.filter (fun n => isMarker n) = [w])
    (hw : w ∈ l)
    (hm2 : isMarker w2 = true) :
    countMarker (l.map fun n => if n.nid = w.nid then w2 else n) = 1 := by
  rw [countMarker_map_replace l w.nid w2 hm2, countMarker_filter_ne l w hsing,
    filter_nid_eq_of_nodup l w hnd hw]
  rfl

/-- Moving the unique wrapper next to the reference child and then updating
it: still exactly one wrapper. -/
theorem countMarker_after_move (l : List Node) (w w2 : Node) (rid : Nat)
    (hsing : l.filter (fun n => isMarker n) = [w])
    (hm2 : isMarker w2 = true) :
    countMarker ((insertAfterNid w rid (l.filter fun n => n.nid ≠ w.nid)).map
      fun n => if n.nid = w.nid then w2 else n) = 1 := by
  rw [countMarker_map_replace _ w.nid w2 hm2]
  have hpart2 : ((insertAfterNid w rid (l.filter fun n => n.nid ≠ w.nid)).filter
      fun n => n.nid = w.nid).length = 1 := by
    rw [insertAfterNid_filter_length]
    have h0 : ((l.filter fun n => n.nid ≠ w.nid).filter
        fun n => n.nid = w.nid) = [] := by
      rw [List.filter_eq_nil_iff]
      intro n hn he
      have hne := List.of_mem_filter hn
      simp only [decide_eq_true_eq] at hne he
      exact hne he
    simp [h0]
  have hpart1 : countMarker
      ((insertAfterNid w rid (l.filter fun n => n.nid ≠ w.nid)).filter
        fun n => n.nid ≠ w.nid) = 0 := by
    unfold countMarker
    rw [List.filter_filter, insertAfterNid_filter_length]
    have hln : ((l.filter fun n => n.nid ≠ w.nid).filter
        fun a => isMarker a && decide (a.nid ≠ w.nid)) = [] := by
      rw [List.filter_eq_nil_iff]
      intro n hn hc
      obtain ⟨h1, _⟩ := Bool.and_eq_true_iff.mp hc
      have hmem : n ∈ l.filter fun n => isMarker n :=
        List.mem_filter.mpr ⟨List.mem_of_mem_filter hn, h1⟩
      rw [hsing, List.mem_singleton] at hmem
      have hne := List.of_mem_filter hn
      simp only [decide_eq_true_eq] at hne
      exact hne (by rw [hmem])
    rw [hln]
    simp
  rw [hpart1, hpart2]

/-- Creating a fresh wrapper in a container that had none: exactly one
wrapper afterwards. -/
theorem countMarker_after_create (l : List Node) (fresh rid : Nat) (w2 : Node)
    (hnone : l.filter (fun n => isMarker n) = [])
    (hfresh : fresh ∉ l.map (·.nid))
    (hm2 : isMarker w2 = true) :
    countMarker ((insertAfterNid (newWrapper fresh) rid l).map
      fun n => if n.nid = fresh then w2 else n) = 1 := by
  rw [countMarker_map_replace _ fresh w2 hm2]
  have hlne : (l.filter fun n => n.nid = fresh) = [] := by
    rw [List.filter_eq_nil_iff]
    intro n hn he
    simp only [decide_eq_true_eq] at he
    exact hfresh (List.mem_map.mpr ⟨n, hn, he⟩)
  have hpart2 : ((insertAfterNid (newWrapper fresh) rid l).filter
      fun n => n.nid = fresh).length = 1 := by
    rw [insertAfterNid_filter_length, hlne]
    simp [newWrapper]
  have hpart1 : countMarker ((insertAfterNid (newWrapper fresh) rid l).filter
      fun n => n.nid ≠ fresh) = 0 := by
    unfold countMarker
    rw [List.filter_filter, insertAfterNid_filter_length]
    have hln : (l.filter fun a => isMarker a && decide (a.nid ≠ fresh)) = [] := by
      rw [List.filter_eq_nil_iff]
      intro n hn hc
      obtain ⟨h1, _⟩ := Bool.and_eq_true_iff.mp hc
      have : n ∈ l.filter fun n => isMarker n := List.mem_filter.mpr ⟨hn, h1⟩
      rw [hnone] at this
      simp at this
    rw [hln]
    simp [newWrapper]
  rw [hpart1, hpart2]

/-- One `sendAd` call on a container that holds exactly one wrapper (with
pairwise-distinct node identities) leaves exactly one wrapper and keeps
identities pairwise distinct. -/
theorem sendAd_preserves_unique (env : SendEnv) (arr : List String)
    (c : Container) (q : Option (List String)) (r : RandInput)
    (hnd : (c.children.map (·.nid)).Nodup)
    (hone : countMarker c.children = 1) :
    countMarker (sendAd env arr c q r).1.children = 1
    ∧ ((sendAd env arr c q r).1.children.map (·.nid)).Nodup := by
  cases hf : c.children.find? (fun n => isMarker n) with
  | none =>
    refine absurd hone ?_
    rw [countMarker, countMarker_of_find?_none _ hf]
    simp
  | some w =>
    have hsing := marker_filter_singleton _ _ hone hf
    have hwmem : w ∈ c.children := List.mem_of_find?_eq_some hf
    have hwm : isMarker w = true := List.find?_some hf
    by_cases hslot : isSlot c = true
    · -- preset slot branch: the found wrapper is updated in place
      simp only [sendAd, hslot, if_true, hf, Option.getD_some, Option.isSome_some,
        if_pos]
      constructor
      · exact countMarker_replace_unique _ _ _ hnd hsing hwmem hwm
      · rw [map_nid_invariant]
        · exact hnd
        · intro n
          by_cases h : n.nid = w.nid <;> simp [h]
    · -- generic branch
      have hslot' : isSlot c = false := by simpa using hslot
      by_cases hlen : (c.children.filter fun n => !isMarker n).length < 3
      · simp only [sendAd, hslot', Bool.false_eq_true, if_false, if_pos hlen]
        exact ⟨hone, hnd⟩
      · cases hch : chooseIdx c.adIndex
            (c.children.filter fun n => !isMarker n).length r.rIdx with
        | none =>
          simp only [sendAd, hslot', Bool.false_eq_true, if_false,
            if_neg hlen, hch]
          exact ⟨hone, hnd⟩
        | some pair =>
          obtain ⟨idx, a'⟩ := pair
          cases hget : (c.children.filter fun n => !isMarker n).get? idx with
          | none =>
            simp only [sendAd, hslot', Bool.false_eq_true, if_false,
              if_neg hlen, hch, hget]
            exact ⟨hone, hnd⟩
          | some ref =>
            by_cases hprev : prevSiblingNid c.children w.nid = some ref.nid
            · -- wrapper already sits right after the reference child
              simp only [sendAd, hslot', Bool.false_eq_true, if_false,
                if_neg hlen, hch, hget, hf, hprev, if_pos, Option.getD_some]
              refine ⟨countMarker_replace_unique _ _ _ hnd hsing hwmem
                (animateAdEntry_marker _ _ (fillWrapper_marker _ _ _ _ hwm)), ?_⟩
              rw [map_nid_invariant]
              · exact hnd
              · intro n
                by_cases h : n.nid = w.nid <;>
                  simp [h, animateAdEntry_nid, fillWrapper_nid]
            · -- wrapper is moved next to the reference child
              simp only [sendAd, hslot', Bool.false_eq_true, if_false,
                if_neg hlen, hch, hget, hf, hprev, if_neg, Option.getD_some]
              refine ⟨countMarker_after_move _ _ _ _ hsing
                (animateAdEntry_marker _ _ (fillWrapper_marker _ _ _ _ hwm)), ?_⟩
              rw [map_nid_invariant]
              · exact move_nodup _ _ _ hnd
              · intro n
                by_cases h : n.nid = w.nid <;>
                  simp [h, animateAdEntry_nid, fillWrapper_nid]

/-- A `newWrapper` has the requested identity. -/
theorem newWrapper_nid (i : Nat) : (newWrapper i).nid = i := rfl

/-- A `newWrapper` carries the marker class. -/
theorem newWrapper_marker (i : Nat) : isMarker (newWrapper i) = true := rfl

/-- Any number of further `sendAd` calls keeps exactly one wrapper. -/
theorem sendAdIter_preserves_unique (env : SendEnv)
    (steps : List (List String × RandInput)) :
    ∀ (c : Container) (q : Option (List String)),
      (c.children.map (·.nid)).Nodup → countMarker c.children = 1 →
      countMarker (sendAdIter env steps (c, q)).1.children = 1 := by
  induction steps with
  | nil => intro c q _ hone; exact hone
  | cons step rest ih =>
    intro c q hnd hone
    obtain ⟨hone', hnd'⟩ := sendAd_preserves_unique env step.1 c q step.2 hnd hone
    simpa [sendAdIter] using ih _ _ hnd' hone'

/-- A first placement on a wrapperless slot container installs exactly one
wrapper. -/
theorem sendAd_slot_creates_unique (env : SendEnv) (arr : List String)
    (c : Container) (q : Option (List String)) (r : RandInput)
    (hslot : isSlot c = true)
    (hzero : countMarker c.children = 0) :
    countMarker (sendAd env arr c q r).1.children = 1 := by
  have hnil : c.children.filter (fun n => isMarker n) = [] :=
    List.length_eq_zero.mp hzero
  have hf : c.children.find? (fun n => isMarker n) = none :=
    List.find?_eq_none.mpr fun n hn => by
      have := List.filter_eq_nil_iff.mp hnil n hn
      simpa using this
  simp only [sendAd, hslot, if_true, hf, Option.getD_none, Option.isSome_none,
    Bool.false_eq_true, if_false, List.map_cons, List.map_nil, newWrapper_nid,
    if_pos]
  simp [countMarker, isMarker, newWrapper]

/-- A first placement on a wrapperless generic container with enough
children and a successful index pick installs exactly one wrapper. -/
theorem sendAd_generic_creates_unique (env : SendEnv) (arr : List String)
    (c : Container) (q : Option (List String)) (r : RandInput)
    (hslot : isSlot c = false)
    (hzero : countMarker c.children = 0)
    (hfresh : r.freshId ∉ c.children.map (·.nid))
    (hlen : ¬ (c.children.filter fun n => !isMarker n).length < 3)
    (idx : Nat) (a' : Option Int)
    (hch : chooseIdx c.adIndex
        (c.children.filter fun n => !isMarker n).length r.rIdx
      = some (idx, a')) :
    countMarker (sendAd env arr c q r).1.children = 1 := by
  have hnil : c.children.filter (fun n => isMarker n) = [] :=
    List.length_eq_zero.mp hzero
  have hf : c.children.find? (fun n => isMarker n) = none :=
    List.find?_eq_none.mpr fun n hn => by
      have := List.filter_eq_nil_iff.mp hnil n hn
      simpa using this
  obtain ⟨hlo, hhi, _⟩ := chooseIdx_bounds _ _ _ _ _ (by omega) hch
  cases hget : (c.children.filter fun n => !isMarker n).get? idx with
  | none => exact absurd (List.get?_eq_none.mp hget) (by omega)
  | some ref =>
    simp only [sendAd, hslot, Bool.false_eq_true, if_false, if_neg hlen, hch,
      hget, hf, Option.getD_none, newWrapper_nid]
    exact countMarker_after_create _ _ _ _ hnil hfresh
      (animateAdEntry_marker _ _
        (fillWrapper_marker _ _ _ _ (newWrapper_marker _)))

/-- Claim C5. Every container owns at most one ad wrapper: a first placement
on a wrapperless container (slot, or generic with enough children and a
successful index pick) installs exactly one wrapper, one further `sendAd`
keeps exactly one, and any number of further placements or rotation ticks
(`sendAdIter`) still leaves exactly one — only the injected content may
differ. -/
theorem sendAd_one_wrapper_per_container (env : SendEnv) (arr : List String)
    (c : Container) (q : Option (List String)) (r : RandInput)
    (hnd : (c.children.map (·.nid)).Nodup)
    (hfresh : r.freshId ∉ c.children.map (·.nid)) :
    (isSlot c = true → wrapperCount c = 0 →
      wrapperCount (sendAd env arr c q r).1 = 1)
    ∧ (isSlot c = false → wrapperCount c = 0 →
        ¬ (c.children.filter fun n => !isMarker n).length < 3 →
        ∀ (idx : Nat) (a' : Option Int),
          chooseIdx c.adIndex
              (c.children.filter fun n => !isMarker n).length r.rIdx
            = some (idx, a') →
          wrapperCount (sendAd env arr c q r).1 = 1)
    ∧ (wrapperCount c = 1 → wrapperCount (sendAd env arr c q r).1 = 1)
    ∧ (wrapperCount c = 1 →
        ∀ steps : List (List String × RandInput),
          wrapperCount (sendAdIter env steps (c, q)).1 = 1) :=
  ⟨fun h1 h2 => sendAd_slot_creates_unique env arr c q r h1 h2,
    fun h1 h2 h3 idx a' hch =>
      sendAd_generic_creates_unique env arr c q r h1 h2 hfresh h3 idx a' hch,
    fun h1 => (sendAd_preserves_unique env arr c q r hnd h1).1,
    fun h1 steps => sendAdIter_preserves_unique env steps c q hnd h1⟩

/-- Witness for C5: three distinct plain children, fresh id 7. -/
theorem sendAd_one_wrapper_per_container_witness :
    (((plainContainer [plainNode 0 "a", plainNode 1 "b",
        plainNode 2 "c"]).children.map (·.nid)).Nodup
    ∧ someRand.freshId ∉ (plainContainer [plainNode 0 "a", plainNode 1 "b",
        plainNode 2 "c"]).children.map (·.nid))
    ∧ ((isSlot (plainContainer [plainNode 0 "a", plainNode 1 "b",
          plainNode 2 "c"]) = true →
        wrapperCount (plainContainer [plainNode 0 "a", plainNode 1 "b",
          plainNode 2 "c"]) = 0 →
        wrapperCount (sendAd plainEnv ["b"]
          (plainContainer [plainNode 0 "a", plainNode 1 "b", plainNode 2 "c"])
          none someRand).1 = 1)
      ∧ (isSlot (plainContainer [plainNode 0 "a", plainNode 1 "b",
            plainNode 2 "c"]) = false →
          wrapperCount (plainContainer [plainNode 0 "a", plainNode 1 "b",
            plainNode 2 "c"]) = 0 →
          ¬ ((plainContainer [plainNode 0 "a", plainNode 1 "b",
            plainNode 2 "c"]).children.filter
              fun n => !isMarker n).length < 3 →
          ∀ (idx : Nat) (a' : Option Int),
            chooseIdx (plainContainer [plainNode 0 "a", plainNode 1 "b",
                plainNode 2 "c"]).adIndex
                ((plainContainer [plainNode 0 "a", plainNode 1 "b",
                  plainNode 2 "c"]).children.filter
                    fun n => !isMarker n).length someRand.rIdx
              = some (idx, a') →
            wrapperCount (sendAd plainEnv ["b"]
              (plainContainer [plainNode 0 "a", plainNode 1 "b",
                plainNode 2 "c"]) none someRand).1 = 1)
      ∧ (wrapperCount (plainContainer [plainNode 0 "a", plainNode 1 "b",
            plainNode 2 "c"]) = 1 →
          wrapperCount (sendAd plainEnv ["b"]
            (plainContainer [plainNode 0 "a", plainNode 1 "b",
              plainNode 2 "c"]) none someRand).1 = 1)
      ∧ (wrapperCount (plainContainer [plainNode 0 "a", plainNode 1 "b",
            plainNode 2 "c"]) = 1 →
          ∀ steps : List (List String × RandInput),
            wrapperCount (sendAdIter plainEnv steps
              (plainContainer [plainNode 0 "a", plainNode 1 "b",
                plainNode 2 "c"], none)).1 = 1)) :=
  ⟨⟨by decide, by decide⟩,
    sendAd_one_wrapper_per_container plainEnv ["b"] _ none someRand
      (by decide) (by decide)⟩

set_option maxRecDepth 4000 in
/-- Counterexample to C2 as stated: after a successful re-fetch the
per-container queue still holds the stale entry, the global rotation queue
is untouched, and the next draw from that queue returns a banner that is
not in the newly fetched list. -/
theorem fetch_keeps_stale_queue_cex :
    (fetchAllBannersFromFile "site" "http://p/" 0
        (FetchOutcome.response true (JsonBody.arr [newCfg])) preState).1.adQueues
      = [(0, ["old1"])]
    ∧ (fetchAllBannersFromFile "site" "http://p/" 0
        (FetchOutcome.response true (JsonBody.arr [newCfg]))
          preState).1.adRotationQueue
      = ["old2"]
    ∧ (getNextAd (fun _ => 0)
        (fetchAllBannersFromFile "site" "http://p/" 0
          (FetchOutcome.response true (JsonBody.arr [newCfg]))
            preState).1.banners
        (some ["old1"])).1 = some "old1"
    ∧ "old1" ∉ (fetchAllBannersFromFile "site" "http://p/" 0
        (FetchOutcome.response true (JsonBody.arr [newCfg]))
          preState).1.banners := by
  decide

/-- Claim C2, amended. A configuration re-fetch never clears the
per-container queues or the global rotation queue — on every outcome they
are carried over unchanged, so stale queued banners are drained before the
new list takes effect; a successful re-fetch only resets `bannerIndex` (to
0) and `rotationOffset`, besides replacing banners/selectors. -/
theorem fetch_preserves_rotation_queues (propertyId pageUrl : String)
    (freshOffset : Nat) (outcome : FetchOutcome) (st : AdState) :
    ((fetchAllBannersFromFile propertyId pageUrl freshOffset outcome
        st).1.adQueues = st.adQueues
      ∧ (fetchAllBannersFromFile propertyId pageUrl freshOffset outcome
          st).1.adRotationQueue = st.adRotationQueue)
    ∧ (∀ (configs : List PropertyConfig) (config : PropertyConfig),
        configs.find? (fun cfg => cfg.property_id == some propertyId)
            = some config →
        (jsTruthy config.url
            && !(pageUrl.startsWith (config.url.getD ""))) = false →
        (fetchAllBannersFromFile propertyId pageUrl freshOffset
            (FetchOutcome.response true (JsonBody.arr configs))
              st).1.bannerIndex = 0
        ∧ (fetchAllBannersFromFile propertyId pageUrl freshOffset
            (FetchOutcome.response true (JsonBody.arr configs))
              st).1.rotationOffset = freshOffset) := by
  constructor
  · cases outcome with
    | netError => exact ⟨rfl, rfl⟩
    | response ok body =>
      cases ok with
      | false => exact ⟨rfl, rfl⟩
      | true =>
        cases body with
        | malformed => exact ⟨rfl, rfl⟩
        | nonArray => exact ⟨rfl, rfl⟩
        | arr configs =>
          cases hfind : configs.find?
              fun cfg => cfg.property_id == some propertyId with
          | none => simp [fetchAllBannersFromFile, hfind]
          | some config =>
            by_cases hurl : (jsTruthy config.url
                && !(pageUrl.startsWith (config.url.getD ""))) = true
            · simp [fetchAllBannersFromFile, hfind, hurl]
            · simp [fetchAllBannersFromFile, hfind, hurl]
  · intro configs config hfind hurl
    simp [fetchAllBannersFromFile, hfind, hurl]

/-- Witness for the amended C2 at the concrete re-fetch. -/
theorem fetch_preserves_rotation_queues_witness :
    (((fetchAllBannersFromFile "site" "http://p/" 0
        (FetchOutcome.response true (JsonBody.arr [newCfg]))
          preState).1.adQueues = preState.adQueues
      ∧ (fetchAllBannersFromFile "site" "http://p/" 0
          (FetchOutcome.response true (JsonBody.arr [newCfg]))
            preState).1.adRotationQueue = preState.adRotationQueue)
    ∧ (∀ (configs : List PropertyConfig) (config : PropertyConfig),
        configs.find? (fun cfg => cfg.property_id == some "site")
            = some config →
        (jsTruthy config.url
            && !("http://p/".startsWith (config.url.getD ""))) = false →
        (fetchAllBannersFromFile "site" "http://p/" 0
            (FetchOutcome.response true (JsonBody.arr configs))
              preState).1.bannerIndex = 0
        ∧ (fetchAllBannersFromFile "site" "http://p/" 0
            (FetchOutcome.response true (JsonBody.arr configs))
              preState).1.rotationOffset = 0)) :=
  fetch_preserves_rotation_queues "site" "http://p/" 0
    (FetchOutcome.response true (JsonBody.arr [newCfg])) preState

/-- Counterexample to C6 as stated: a non-OK HTTP response and a response
with no entry matching the site id are failures of the configuration load,
yet neither is logged (`catch` is never reached). -/
theorem fetch_nonOk_not_logged_cex :
    (fetchAllBannersFromFile "site" "u" 0
        (FetchOutcome.response false JsonBody.nonArray) preState).2 = false
    ∧ (fetchAllBannersFromFile "site" "u" 0
        (FetchOutcome.response true (JsonBody.arr [])) preState).2 = false := by
  decide

/-- Claim C6, amended. No configuration-load failure throws: every failure
path returns with the module state unchanged (in particular no banners get
configured by a failed load).  Only failures that raise — network error and
malformed JSON — are logged; a non-OK response, a non-array body and a
missing matching entry return silently. -/
theorem fetch_failure_handling (propertyId pageUrl : String)
    (freshOffset : Nat) (st : AdState) :
    fetchAllBannersFromFile propertyId pageUrl freshOffset
        FetchOutcome.netError st = (st, true)
    ∧ (∀ body : JsonBody, fetchAllBannersFromFile propertyId pageUrl
        freshOffset (FetchOutcome.response false body) st = (st, false))
    ∧ fetchAllBannersFromFile propertyId pageUrl freshOffset
        (FetchOutcome.response true JsonBody.malformed) st = (st, true)
    ∧ fetchAllBannersFromFile propertyId pageUrl freshOffset
        (FetchOutcome.response true JsonBody.nonArray) st = (st, false)
    ∧ (∀ configs : List PropertyConfig,
        configs.find? (fun cfg => cfg.property_id == some propertyId) = none →
        fetchAllBannersFromFile propertyId pageUrl freshOffset
          (FetchOutcome.response true (JsonBody.arr configs)) st
          = (st, false)) := by
  refine ⟨rfl, fun body => rfl, rfl, rfl, fun configs hnone => ?_⟩
  simp [fetchAllBannersFromFile, hnone]

/-- Witness for the amended C6 at a concrete state. -/
theorem fetch_failure_handling_witness :
    fetchAllBannersFromFile "site" "u" 0 FetchOutcome.netError preState
        = (preState, true)
    ∧ (∀ body : JsonBody, fetchAllBannersFromFile "site" "u" 0
        (FetchOutcome.response false body) preState = (preState, false))
    ∧ fetchAllBannersFromFile "site" "u" 0
        (FetchOutcome.response true JsonBody.malformed) preState
        = (preState, true)
    ∧ fetchAllBannersFromFile "site" "u" 0
        (FetchOutcome.response true JsonBody.nonArray) preState
        = (preState, false)
    ∧ (∀ configs : List PropertyConfig,
        configs.find? (fun cfg => cfg.property_id == some "site") = none →
        fetchAllBannersFromFile "site" "u" 0
          (FetchOutcome.response true (JsonBody.arr configs)) preState
          = (preState, false)) :=
  fetch_failure_handling "site" "u" 0 preState

/-- Counterexample to C8 as stated: more than one banner was loaded, yet no
timer is started, because the empty selector list aborts initialisation
first. -/
theorem timers_skipped_despite_two_banners_cex :
    noSelState.banners.length > 1
    ∧ initAdInjectorTimers noSelState = [] := by
  decide

/-- Claim C8, amended. Provided at least one container selector was loaded,
initialisation starts the 10-second rotation timer and the 5-minute
(300 000 ms) re-fetch timer exactly when more than one banner was loaded,
and starts nothing with one or zero banners; with no selectors it aborts
and starts no timer at all. -/
theorem initAdInjector_timer_condition (st : AdState)
    (hsel : st.containerSelectors ≠ []) :
    (st.banners.length > 1 ↔
      initAdInjectorTimers st
        = [(10000, TimerKind.rotate), (5 * 60 * 1000, TimerKind.refetch)])
    ∧ (st.banners.length ≤ 1 → initAdInjectorTimers st = [])
    ∧ (∀ st' : AdState, st'.containerSelectors = [] →
        initAdInjectorTimers st' = []) := by
  have hne : st.containerSelectors.isEmpty = false := by
    simpa [List.isEmpty_iff] using hsel
  refine ⟨⟨fun h => by simp [initAdInjectorTimers, hne, h], fun h => ?_⟩,
    fun h => by
      have h1 : ¬ st.banners.length > 1 := by omega
      simp [initAdInjectorTimers, hne, h1],
    fun st' h' => by simp [initAdInjectorTimers, h']⟩
  by_cases hb : st.banners.length > 1
  · exact hb
  · simp [initAdInjectorTimers, hne, hb] at h

/-- Witness for the amended C8 at a one-selector, two-banner state. -/
theorem initAdInjector_timer_condition_witness :
    preState.containerSelectors ≠ []
    ∧ ((preState.banners.length > 1 ↔
        initAdInjectorTimers preState
          = [(10000, TimerKind.rotate), (5 * 60 * 1000, TimerKind.refetch)])
      ∧ (preState.banners.length ≤ 1 → initAdInjectorTimers preState = [])
      ∧ (∀ st' : AdState, st'.containerSelectors = [] →
          initAdInjectorTimers st' = [])) :=
  ⟨by decide, initAdInjector_timer_condition preState (by decide)⟩

/-- Claim C10. With fewer than two banners loaded (including a failed fetch
leaving zero), initialisation starts no timer at all — in particular the
5-minute re-fetch timer is never started, so such a load is never
revisited. -/
theorem no_refetch_below_two_banners (st : AdState)
    (h : st.banners.length < 2) :
    initAdInjectorTimers st = []
    ∧ (5 * 60 * 1000, TimerKind.refetch) ∉ initAdInjectorTimers st := by
  have h1 : ¬ st.banners.length > 1 := by omega
  have heq : initAdInjectorTimers st = [] := by
    unfold initAdInjectorTimers
    by_cases he : st.containerSelectors.isEmpty <;> simp [he, h1]
  exact ⟨heq, by simp [heq]⟩

/-- Witness for C10 at a one-banner state. -/
theorem no_refetch_below_two_banners_witness :
    ({ banners := ["only"], bannerIndex := 0,
       containerSelectors := [ContainerSpec.str ".c"], rotationOffset := 0,
       copySiblingSelector := none, adConfigBanners := none, adQueues := [],
       adRotationQueue := [] } : AdState).banners.length < 2
    ∧ (initAdInjectorTimers
        { banners := ["only"], bannerIndex := 0,
          containerSelectors := [ContainerSpec.str ".c"], rotationOffset := 0,
          copySiblingSelector := none, adConfigBanners := none,
          adQueues := [], adRotationQueue := [] } = []
      ∧ (5 * 60 * 1000, TimerKind.refetch) ∉ initAdInjectorTimers
          { banners := ["only"], bannerIndex := 0,
            containerSelectors := [ContainerSpec.str ".c"],
            rotationOffset := 0, copySiblingSelector := none,
            adConfigBanners := none, adQueues := [],
            adRotationQueue := [] }) :=
  ⟨by decide, no_refetch_below_two_banners _ (by decide)⟩

end AdSend
